import Mathlib

/-!
Shallow embedding of `postgresql/resource_postgresql_extension.go`, the CRUD
handler for the `postgresql_extension` Terraform resource.  Each lifecycle
operation is modelled as a pure function from a client, a database oracle and
the resource data to a result together with the trace of observable events it
performs (lock acquisition/release, `Exec` statements, parameterized
`QueryRow` calls).  The Go `defer c.catalogLock.Unlock()` idiom is embedded by
appending the release event on every exit path of the operation.
-/

namespace PgExt

/-- Modelled from the spec: `pq.QuoteIdentifier`, the external
identifier-quoting routine, performs standard double-quote identifier
escaping: the name is wrapped in double quotes and every embedded double
quote is doubled.  `escapeQuotes` is the body-doubling part. -/
def escapeQuotes : List Char → List Char
  | [] => []
  | c :: cs => if c = '"' then '"' :: '"' :: escapeQuotes cs else c :: escapeQuotes cs

/-- Modelled from the spec: the single quoting routine every identifier
interpolated into SQL text must go through. -/
def QuoteIdentifier (name : String) : String :=
  String.mk ('"' :: (escapeQuotes name.toList ++ ['"']))

/-- Terraform resource data for one `postgresql_extension` resource: the
identity (`d.Id()`) plus, for each of the three attributes, the old value
(state) and the new value (config), so `d.Get`/`d.GetOk` return the new value
and `d.GetChange` returns the pair. -/
structure ResourceData where
  id : String
  oldName : String
  newName : String
  oldSchema : String
  newSchema : String
  oldVersion : String
  newVersion : String
deriving DecidableEq, Repr

/-- Terraform's `d.HasChange(attr)`: the attribute's old and new values differ. -/
def hasChange (old new : String) : Bool := old != new

/-- Terraform's `d.GetOk(attr)` second component for a string attribute: `ok`
is true exactly when the value is not the zero value (the empty string). -/
def getOk (v : String) : Bool := v != ""

/-- Connection client: the detected capability bit for `featureExtension`
(via `c.featureSupported`, external version/feature detection) and the server
version string used in the unsupported-feature error message. -/
structure Client where
  featureSupported : Bool
  version : String
deriving DecidableEq, Repr

/-- Result of the existence probe `QueryRow(query, id).Scan(&extensionName)`:
zero rows (`sql.ErrNoRows`), a driver error, or a row. -/
inductive ProbeResult where
  | noRows : ProbeResult
  | err : String → ProbeResult
  | row : String → ProbeResult
deriving DecidableEq, Repr

/-- Result of the full catalog read joining `pg_extension` with
`pg_namespace`: zero rows, a driver error, or one row carrying
`(extname, nspname, extversion)`. -/
inductive ReadResult where
  | noRows : ReadResult
  | err : String → ReadResult
  | row : String → String → String → ReadResult
deriving DecidableEq, Repr

/-- Database oracle: how the server answers each `Exec` statement (`none` =
success, `some e` = driver error `e`) and each of the two parameterized
catalog queries, keyed by the `$1` parameter. -/
structure DB where
  exec : String → Option String
  extProbe : String → ProbeResult
  fullRead : String → ReadResult

/-- Errors surfaced by the lifecycle operations: the unsupported-feature
error built with `fmt.Errorf`, the `errors.New` validation error from
`setExtSchema`, an `errwrap.Wrapf`-wrapped driver error (context message plus
underlying cause), and the raw driver error returned unwrapped by `Exists`. -/
inductive PgError where
  | unsupportedFeature : String → PgError
  | validation : String → PgError
  | wrapped : String → String → PgError
  | driver : String → PgError
deriving DecidableEq, Repr

/-- Observable events of one operation, in order: exclusive lock
acquisition/release, shared (read) lock acquisition/release, an `Exec` of a
SQL statement built by string interpolation, and a parameterized `QueryRow`. -/
inductive Event where
  | lock : Event
  | unlock : Event
  | rlock : Event
  | runlock : Event
  | exec : String → Event
  | query : String → String → Event
deriving DecidableEq, Repr

/-- SQL text of the existence probe (parameter passed separately as `$1`). -/
def extensionExistsQuery : String :=
  "SELECT extname FROM pg_catalog.pg_extension WHERE extname = $1"

/-- SQL text of the full catalog read (parameter passed separately as `$1`). -/
def extensionFullQuery : String :=
  "SELECT e.extname, n.nspname, e.extversion " ++
  "FROM pg_catalog.pg_extension e, pg_catalog.pg_namespace n " ++
  "WHERE n.oid = e.extnamespace AND e.extname = $1"

/-- Statement built by `resourcePostgreSQLExtensionCreate`: a buffer seeded
with `CREATE EXTENSION IF NOT EXISTS `, the quoted name, then a ` SCHEMA `
clause when `d.GetOk(extSchemaAttr)` is ok and a ` VERSION ` clause when
`d.GetOk(extVersionAttr)` is ok. -/
def createExtensionSQL (d : ResourceData) : String :=
  "CREATE EXTENSION IF NOT EXISTS " ++ QuoteIdentifier d.newName ++
    (if getOk d.newSchema then " SCHEMA " ++ QuoteIdentifier d.newSchema else "") ++
    (if getOk d.newVersion then " VERSION " ++ QuoteIdentifier d.newVersion else "")

/-- Statement built by `setExtSchema` for relocation. -/
def alterSchemaSQL (id n : String) : String :=
  "ALTER EXTENSION " ++ QuoteIdentifier id ++ " SET SCHEMA " ++ QuoteIdentifier n

/-- Statement built by `setExtVersion`: a buffer holding
`ALTER EXTENSION <id> UPDATE`, with ` TO <v>` appended only when the new
version is not the empty string. -/
def alterVersionSQL (id n : String) : String :=
  "ALTER EXTENSION " ++ QuoteIdentifier id ++ " UPDATE" ++
    (if n != "" then " TO " ++ QuoteIdentifier n else "")

/-- Statement built by `resourcePostgreSQLExtensionDelete`. -/
def dropExtensionSQL (id : String) : String :=
  "DROP EXTENSION " ++ QuoteIdentifier id

/-- Embedding of `resourcePostgreSQLExtensionReadImpl`: run the full catalog
query on `d.Id()`; on `sql.ErrNoRows` clear the id and succeed; on another
error wrap it; on a row set the three attributes and the id from the row. -/
def resourcePostgreSQLExtensionReadImpl (db : DB) (d : ResourceData) :
    Except PgError ResourceData × List Event :=
  match db.fullRead d.id with
  | .noRows => (.ok { d with id := "" }, [.query extensionFullQuery d.id])
  | .err e => (.error (.wrapped "Error reading extension" e), [.query extensionFullQuery d.id])
  | .row name sch ver =>
      (.ok { d with newName := name, newSchema := sch, newVersion := ver, id := name },
       [.query extensionFullQuery d.id])

/-- Embedding of `resourcePostgreSQLExtensionCreate`: capability gate, then
exclusive lock (released by defer on every path), build and `Exec` the CREATE
statement, set the id to the name, and finish with the read implementation. -/
def resourcePostgreSQLExtensionCreate (c : Client) (db : DB) (d : ResourceData) :
    Except PgError ResourceData × List Event :=
  if !c.featureSupported then
    (.error (.unsupportedFeature c.version), [])
  else
    match db.exec (createExtensionSQL d) with
    | some e =>
        (.error (.wrapped "Error creating extension" e),
         [.lock, .exec (createExtensionSQL d), .unlock])
    | none =>
        match resourcePostgreSQLExtensionReadImpl db { d with id := d.newName } with
        | (r, evs) => (r, .lock :: .exec (createExtensionSQL d) :: (evs ++ [.unlock]))

/-- Embedding of `resourcePostgreSQLExtensionExists`: capability gate, then
exclusive lock, then the existence probe on `d.Id()`; `sql.ErrNoRows` maps to
`(false, nil)`, another error is returned raw, a row maps to `(true, nil)`. -/
def resourcePostgreSQLExtensionExists (c : Client) (db : DB) (d : ResourceData) :
    Except PgError Bool × List Event :=
  if !c.featureSupported then
    (.error (.unsupportedFeature c.version), [])
  else
    match db.extProbe d.id with
    | .noRows => (.ok false, [.lock, .query extensionExistsQuery d.id, .unlock])
    | .err e => (.error (.driver e), [.lock, .query extensionExistsQuery d.id, .unlock])
    | .row _ => (.ok true, [.lock, .query extensionExistsQuery d.id, .unlock])

/-- Embedding of `resourcePostgreSQLExtensionRead`: capability gate, then the
shared (read) lock around the read implementation. -/
def resourcePostgreSQLExtensionRead (c : Client) (db : DB) (d : ResourceData) :
    Except PgError ResourceData × List Event :=
  if !c.featureSupported then
    (.error (.unsupportedFeature c.version), [])
  else
    match resourcePostgreSQLExtensionReadImpl db d with
    | (r, evs) => (r, .rlock :: (evs ++ [.runlock]))

/-- Embedding of `resourcePostgreSQLExtensionDelete`: capability gate,
exclusive lock, `Exec` the DROP statement, clear the id on success. -/
def resourcePostgreSQLExtensionDelete (c : Client) (db : DB) (d : ResourceData) :
    Except PgError ResourceData × List Event :=
  if !c.featureSupported then
    (.error (.unsupportedFeature c.version), [])
  else
    match db.exec (dropExtensionSQL d.id) with
    | some e =>
        (.error (.wrapped "Error deleting extension" e),
         [.lock, .exec (dropExtensionSQL d.id), .unlock])
    | none =>
        (.ok { d with id := "" }, [.lock, .exec (dropExtensionSQL d.id), .unlock])

/-- Embedding of `setExtSchema`: no-op without a schema change; reject an
empty new schema with `errors.New` before touching the database; otherwise
`Exec` the relocation statement. -/
def setExtSchema (db : DB) (d : ResourceData) :
    Except PgError ResourceData × List Event :=
  if !hasChange d.oldSchema d.newSchema then
    (.ok d, [])
  else if d.newSchema = "" then
    (.error (.validation "Error setting extension name to an empty string"), [])
  else
    match db.exec (alterSchemaSQL d.id d.newSchema) with
    | some e =>
        (.error (.wrapped "Error updating extension SCHEMA" e),
         [.exec (alterSchemaSQL d.id d.newSchema)])
    | none => (.ok d, [.exec (alterSchemaSQL d.id d.newSchema)])

/-- Embedding of `setExtVersion`: no-op without a version change; otherwise
`Exec` `ALTER EXTENSION <id> UPDATE`, with a ` TO ` clause only for a
non-empty new version. -/
def setExtVersion (db : DB) (d : ResourceData) :
    Except PgError ResourceData × List Event :=
  if !hasChange d.oldVersion d.newVersion then
    (.ok d, [])
  else
    match db.exec (alterVersionSQL d.id d.newVersion) with
    | some e =>
        (.error (.wrapped "Error updating extension version" e),
         [.exec (alterVersionSQL d.id d.newVersion)])
    | none => (.ok d, [.exec (alterVersionSQL d.id d.newVersion)])

/-- Embedding of `resourcePostgreSQLExtensionUpdate`: capability gate,
exclusive lock, `setExtSchema` then `setExtVersion` (each early-returning its
error), finishing with the read implementation; the deferred unlock closes
every path. -/
def resourcePostgreSQLExtensionUpdate (c : Client) (db : DB) (d : ResourceData) :
    Except PgError ResourceData × List Event :=
  if !c.featureSupported then
    (.error (.unsupportedFeature c.version), [])
  else
    match setExtSchema db d with
    | (.error e, evs) => (.error e, .lock :: (evs ++ [.unlock]))
    | (.ok d1, evs1) =>
        match setExtVersion db d1 with
        | (.error e, evs2) => (.error e, .lock :: (evs1 ++ evs2 ++ [.unlock]))
        | (.ok d2, evs2) =>
            match resourcePostgreSQLExtensionReadImpl db d2 with
            | (r, evs3) => (r, .lock :: (evs1 ++ evs2 ++ evs3 ++ [.unlock]))

/-- Statements passed to `Exec` within a trace, in order. -/
def execStmts : List Event → List String
  | [] => []
  | .exec s :: es => s :: execStmts es
  | _ :: es => execStmts es

/-!
Spec-side recognizer for the emitted statement language, written from the
spec's words: every identifier interpolated into statement text appears in
double-quote-escaped identifier form, in one of the four fixed statement
templates of section 6.  A quoted identifier is an opening double quote, a
body in which every embedded double quote is doubled, and a closing double
quote; the scanner below consumes such a segment after its opening quote and
returns the unescaped body together with the remaining input.
-/

/-- Scanner for the inside of a double-quote-escaped identifier: a doubled
quote is an escaped body character, a single quote closes the identifier;
returns the unescaped body and the input after the closing quote. -/
def scanQuotedAcc : List Char → Option (List Char × List Char)
  | [] => none
  | c :: rest =>
    if c = '"' then
      match rest with
      | [] => some ([], [])
      | c2 :: rest2 =>
        if c2 = '"' then
          match scanQuotedAcc rest2 with
          | none => none
          | some (b, r) => some ('"' :: b, r)
        else some ([], c2 :: rest2)
    else
      match scanQuotedAcc rest with
      | none => none
      | some (b, r) => some (c :: b, r)

/-- Parses one double-quote-escaped identifier at the head of the input,
returning its unescaped text and the remaining input. -/
def parseQuoted : List Char → Option (String × List Char)
  | [] => none
  | c :: rest =>
    if c = '"' then
      match scanQuotedAcc rest with
      | none => none
      | some (b, r) => some (String.mk b, r)
    else none

/-- Consumes an expected fixed literal at the head of the input. -/
def dropLit : List Char → List Char → Option (List Char)
  | [], cs => some cs
  | _ :: _, [] => none
  | l :: ls, c :: cs => if c = l then dropLit ls cs else none

/-- Parses the tail of a creation statement after the optional schema clause:
either nothing, or the version clause with a quoted identifier ending the
statement.  Returns the optional version. -/
def parseVersionTail (cs : List Char) : Option (Option String) :=
  if cs.isEmpty then some none
  else
    match dropLit " VERSION ".toList cs with
    | none => none
    | some rest =>
      match parseQuoted rest with
      | none => none
      | some (v, rest2) => if rest2.isEmpty then some (some v) else none

/-- Parses the tail of a creation statement after the quoted name: an
optional schema clause followed by an optional version clause, in that order
and nothing else.  Returns the optional schema and version. -/
def parseCreateTail (cs : List Char) : Option (Option String × Option String) :=
  match dropLit " SCHEMA ".toList cs with
  | some rest =>
    match parseQuoted rest with
    | none => none
    | some (sch, rest2) =>
      match parseVersionTail rest2 with
      | none => none
      | some v => some (some sch, v)
  | none =>
    match parseVersionTail cs with
    | none => none
    | some v => some (none, v)

/-- Parses a full creation statement, returning the unescaped extension name
and the optional unescaped schema and version. -/
def parseCreateStmt (s : String) : Option (String × Option String × Option String) :=
  match dropLit "CREATE EXTENSION IF NOT EXISTS ".toList s.toList with
  | none => none
  | some rest =>
    match parseQuoted rest with
    | none => none
    | some (name, rest2) =>
      match parseCreateTail rest2 with
      | none => none
      | some (sch, v) => some (name, sch, v)

/-- Parses a full relocation statement, returning the unescaped extension
name and new schema. -/
def parseAlterSchemaStmt (s : String) : Option (String × String) :=
  match dropLit "ALTER EXTENSION ".toList s.toList with
  | none => none
  | some rest =>
    match parseQuoted rest with
    | none => none
    | some (name, rest2) =>
      match dropLit " SET SCHEMA ".toList rest2 with
      | none => none
      | some rest3 =>
        match parseQuoted rest3 with
        | none => none
        | some (sch, rest4) => if rest4.isEmpty then some (name, sch) else none

/-- Parses a full reversion statement, returning the unescaped extension name
and the optional unescaped target version. -/
def parseAlterVersionStmt (s : String) : Option (String × Option String) :=
  match dropLit "ALTER EXTENSION ".toList s.toList with
  | none => none
  | some rest =>
    match parseQuoted rest with
    | none => none
    | some (name, rest2) =>
      match dropLit " UPDATE".toList rest2 with
      | none => none
      | some rest3 =>
        if rest3.isEmpty then some (name, none)
        else
          match dropLit " TO ".toList rest3 with
          | none => none
          | some rest4 =>
            match parseQuoted rest4 with
            | none => none
            | some (v, rest5) => if rest5.isEmpty then some (name, some v) else none

/-- Parses a full drop statement, returning the unescaped extension name. -/
def parseDropStmt (s : String) : Option String :=
  match dropLit "DROP EXTENSION ".toList s.toList with
  | none => none
  | some rest =>
    match parseQuoted rest with
    | none => none
    | some (name, rest2) => if rest2.isEmpty then some name else none

/-- Spec-side statement-language membership: the statement is one of the four
fixed templates with every caller-supplied string appearing only inside
double-quote-escaped identifier segments. -/
def wellQuotedStmt (s : String) : Bool :=
  (parseCreateStmt s).isSome || (parseAlterSchemaStmt s).isSome ||
    (parseAlterVersionStmt s).isSome || (parseDropStmt s).isSome

/-- Events a lock scope may contain: statement executions and catalog
queries, never lock events. -/
def isSqlEvent : Event → Bool
  | .exec _ => true
  | .query _ _ => true
  | _ => false

/-- Checks that a trace suffix consists of SQL events only and ends with the
given release event. -/
def midThenClose (ulk : Event) : List Event → Bool
  | [] => false
  | e :: rest =>
    if rest.isEmpty then decide (e = ulk) else isSqlEvent e && midThenClose ulk rest

/-- Checks that a trace opens with the given acquisition event, contains only
SQL events in between, and closes with the given release event. -/
def wellScoped (lk ulk : Event) (tr : List Event) : Bool :=
  match tr with
  | [] => false
  | e :: rest => decide (e = lk) && midThenClose ulk rest

/-- Success test on a lifecycle result. -/
def isOk {α : Type} : Except PgError α → Bool
  | .ok _ => true
  | .error _ => false

/-- Sample client whose target database supports extensions. -/
def sampleClient : Client := { featureSupported := true, version := "9.6.3" }

/-- Sample client whose target database predates extension support. -/
def gatedClient : Client := { featureSupported := false, version := "8.0.2" }

/-- Sample database oracle on which every statement succeeds and both catalog
queries report zero rows. -/
def sampleDB : DB :=
  { exec := fun _ => none, extProbe := fun _ => .noRows, fullRead := fun _ => .noRows }

/-- Sample database oracle on which every statement succeeds, the existence
probe finds a row, and the full read returns a `pgcrypto` row. -/
def rowDB : DB :=
  { exec := fun _ => none,
    extProbe := fun _ => .row "pgcrypto",
    fullRead := fun _ => .row "pgcrypto" "public" "1.3" }

/-- Sample database oracle on which every statement and query fails. -/
def failDB : DB :=
  { exec := fun _ => some "connection reset",
    extProbe := fun _ => .err "connection reset",
    fullRead := fun _ => .err "connection reset" }

/-- Sample resource data with every attribute present and a name holding an
embedded double quote, the interesting case for quoting. -/
def sampleData : ResourceData :=
  { id := "pg\"crypto", oldName := "pg\"crypto", newName := "pg\"crypto",
    oldSchema := "public", newSchema := "public",
    oldVersion := "1.2", newVersion := "1.3" }

/-- Sample resource data whose previous and desired states agree on every
attribute: no field reports a change. -/
def noopData : ResourceData :=
  { id := "pgcrypto", oldName := "pgcrypto", newName := "pgcrypto",
    oldSchema := "public", newSchema := "public",
    oldVersion := "1.3", newVersion := "1.3" }

/-- Sample resource data changing both the schema and the version. -/
def updData : ResourceData :=
  { id := "hstore", oldName := "hstore", newName := "hstore",
    oldSchema := "public", newSchema := "app",
    oldVersion := "1.2", newVersion := "1.3" }

/-- Sample resource data changing the schema to the empty string. -/
def emptySchemaData : ResourceData :=
  { id := "hstore", oldName := "hstore", newName := "hstore",
    oldSchema := "public", newSchema := "",
    oldVersion := "1.3", newVersion := "1.3" }

/-- Sample resource data changing only the version, to the empty string. -/
def bareVerData : ResourceData :=
  { id := "hstore", oldName := "hstore", newName := "hstore",
    oldSchema := "public", newSchema := "public",
    oldVersion := "1.3", newVersion := "" }

/-- Sample resource data whose desired schema and version are both the empty
string, the optional values being absent. -/
def bareData : ResourceData :=
  { id := "hstore", oldName := "hstore", newName := "hstore",
    oldSchema := "", newSchema := "",
    oldVersion := "", newVersion := "" }

/-- Sample database oracle on which the relocation statement for `updData`
succeeds while its reversion statement fails: the partial-failure scenario of
an update. -/
def splitDB : DB :=
  { exec := fun s => if s = alterVersionSQL "hstore" "1.3" then some "boom" else none,
    extProbe := fun _ => .noRows,
    fullRead := fun _ => .noRows }

/-! Support lemmas about string/list plumbing and the recognizer. -/

theorem toList_append (a b : String) : (a ++ b).toList = a.toList ++ b.toList := rfl

theorem mk_toList (s : String) : String.mk s.toList = s := rfl

theorem dropLit_append (ls cs : List Char) : dropLit ls (ls ++ cs) = some cs := by
  induction ls with
  | nil => rfl
  | cons l ls ih => simp [dropLit, ih]

theorem scanQuotedAcc_round (s rest : List Char) (h : rest.head? ≠ some '"') :
    scanQuotedAcc (escapeQuotes s ++ '"' :: rest) = some (s, rest) := by
  induction s with
  | nil =>
    cases rest with
    | nil => simp [escapeQuotes, scanQuotedAcc]
    | cons c2 r2 =>
      have hc : ¬ (c2 = '"') := by simpa using h
      simp [escapeQuotes, scanQuotedAcc, hc]
  | cons a s ih =>
    by_cases ha : a = '"'
    · subst ha
      simp [escapeQuotes, scanQuotedAcc, ih]
    · have hne : escapeQuotes (a :: s) ++ '"' :: rest
          = a :: (escapeQuotes s ++ '"' :: rest) := by
        simp [escapeQuotes, ha]
      rw [hne]
      cases hL : escapeQuotes s ++ '"' :: rest with
      | nil => exact absurd hL (by simp)
      | cons c0 L0 =>
        rw [hL] at ih
        simp [scanQuotedAcc, ha, ih]

theorem parseQuoted_round (s : String) (rest : List Char) (h : rest.head? ≠ some '"') :
    parseQuoted ((QuoteIdentifier s).toList ++ rest) = some (s, rest) := by
  have h1 : (QuoteIdentifier s).toList ++ rest
      = '"' :: (escapeQuotes s.data ++ '"' :: rest) := by
    simp [QuoteIdentifier, String.toList]
  rw [h1]
  simp [parseQuoted, scanQuotedAcc_round s.data rest h]

theorem toList_empty : ("".toList : List Char) = [] := rfl

theorem parseQuoted_round_nil (s : String) :
    parseQuoted ((QuoteIdentifier s).toList) = some (s, []) := by
  have h := parseQuoted_round s [] (by simp)
  simpa using h

theorem head_ne_quote_schema (x : List Char) :
    (" SCHEMA ".toList ++ x).head? ≠ some '"' := by
  rw [show (" SCHEMA ".toList ++ x).head? = some ' ' from rfl]
  simp

theorem head_ne_quote_version (x : List Char) :
    (" VERSION ".toList ++ x).head? ≠ some '"' := by
  rw [show (" VERSION ".toList ++ x).head? = some ' ' from rfl]
  simp

theorem parseVersionTail_nil : parseVersionTail [] = some none := rfl

theorem parseVersionTail_some (v : String) :
    parseVersionTail (" VERSION ".toList ++ (QuoteIdentifier v).toList) = some (some v) := by
  have h : ¬ ((" VERSION ".toList ++ (QuoteIdentifier v).toList).isEmpty = true) := by
    rw [show (" VERSION ".toList ++ (QuoteIdentifier v).toList).isEmpty = false from rfl]
    simp
  simp only [parseVersionTail, if_neg h, dropLit_append, parseQuoted_round_nil]
  simp

theorem parseCreateTail_nil : parseCreateTail [] = some (none, none) := rfl

theorem parseCreateTail_version (v : String) :
    parseCreateTail (" VERSION ".toList ++ (QuoteIdentifier v).toList)
      = some (none, some v) := by
  simp only [parseCreateTail,
    show dropLit " SCHEMA ".toList
      (" VERSION ".toList ++ (QuoteIdentifier v).toList) = none from rfl,
    parseVersionTail_some]

theorem parseCreateTail_schema (sch : String) (vt : List Char) (ov : Option String)
    (hhead : vt.head? ≠ some '"') (hvt : parseVersionTail vt = some ov) :
    parseCreateTail (" SCHEMA ".toList ++ ((QuoteIdentifier sch).toList ++ vt))
      = some (some sch, ov) := by
  simp only [parseCreateTail, dropLit_append, parseQuoted_round sch vt hhead, hvt]

theorem parseCreateTail_schema_nil (sch : String) :
    parseCreateTail (" SCHEMA ".toList ++ (QuoteIdentifier sch).toList)
      = some (some sch, none) := by
  have h := parseCreateTail_schema sch [] none (by simp) parseVersionTail_nil
  simpa using h

/-- Round trip for the built creation statement: parsing it back recovers the
name and exactly the clauses whose inputs were present. -/
theorem parseCreateStmt_round (d : ResourceData) :
    parseCreateStmt (createExtensionSQL d) =
      some (d.newName,
        (if d.newSchema = "" then (none : Option String) else some d.newSchema),
        (if d.newVersion = "" then (none : Option String) else some d.newVersion)) := by
  by_cases hs : d.newSchema = "" <;> by_cases hv : d.newVersion = ""
  · have hl : (createExtensionSQL d).toList =
        "CREATE EXTENSION IF NOT EXISTS ".toList ++ (QuoteIdentifier d.newName).toList := by
      simp [createExtensionSQL, getOk, hs, hv]
    simp only [parseCreateStmt, hl, dropLit_append, parseQuoted_round_nil,
      parseCreateTail_nil, hs, hv]
    simp
  · have hl : (createExtensionSQL d).toList =
        "CREATE EXTENSION IF NOT EXISTS ".toList ++ ((QuoteIdentifier d.newName).toList ++
          (" VERSION ".toList ++ (QuoteIdentifier d.newVersion).toList)) := by
      simp [createExtensionSQL, getOk, hs, hv]
    simp only [parseCreateStmt, hl, dropLit_append,
      parseQuoted_round d.newName _ (head_ne_quote_version _),
      parseCreateTail_version, hs, hv]
    simp [hv]
  · have hl : (createExtensionSQL d).toList =
        "CREATE EXTENSION IF NOT EXISTS ".toList ++ ((QuoteIdentifier d.newName).toList ++
          (" SCHEMA ".toList ++ (QuoteIdentifier d.newSchema).toList)) := by
      simp [createExtensionSQL, getOk, hs, hv]
    simp only [parseCreateStmt, hl, dropLit_append,
      parseQuoted_round d.newName _ (head_ne_quote_schema _),
      parseCreateTail_schema_nil, hs, hv]
    simp [hs]
  · have hl : (createExtensionSQL d).toList =
        "CREATE EXTENSION IF NOT EXISTS ".toList ++ ((QuoteIdentifier d.newName).toList ++
          (" SCHEMA ".toList ++ ((QuoteIdentifier d.newSchema).toList ++
            (" VERSION ".toList ++ (QuoteIdentifier d.newVersion).toList)))) := by
      simp [createExtensionSQL, getOk, hs, hv]
    simp only [parseCreateStmt, hl, dropLit_append,
      parseQuoted_round d.newName _ (head_ne_quote_schema _),
      parseCreateTail_schema d.newSchema _ _ (head_ne_quote_version _)
        (parseVersionTail_some d.newVersion), hs, hv]
    simp [hs, hv]

theorem head_ne_quote_setSchema (x : List Char) :
    (" SET SCHEMA ".toList ++ x).head? ≠ some '"' := by
  rw [show (" SET SCHEMA ".toList ++ x).head? = some ' ' from rfl]
  simp

theorem head_ne_quote_updateKw (x : List Char) :
    (" UPDATE".toList ++ x).head? ≠ some '"' := by
  rw [show (" UPDATE".toList ++ x).head? = some ' ' from rfl]
  simp

/-- Round trip for the built relocation statement. -/
theorem parseAlterSchemaStmt_round (id n : String) :
    parseAlterSchemaStmt (alterSchemaSQL id n) = some (id, n) := by
  have hl : (alterSchemaSQL id n).toList =
      "ALTER EXTENSION ".toList ++ ((QuoteIdentifier id).toList ++
        (" SET SCHEMA ".toList ++ (QuoteIdentifier n).toList)) := by
    simp [alterSchemaSQL]
  simp only [parseAlterSchemaStmt, hl, dropLit_append,
    parseQuoted_round id _ (head_ne_quote_setSchema _), parseQuoted_round_nil]
  simp

/-- Round trip for the built reversion statement: the target-version clause
is present in the parse exactly when the new version is non-empty. -/
theorem parseAlterVersionStmt_round (id n : String) :
    parseAlterVersionStmt (alterVersionSQL id n)
      = some (id, if n = "" then none else some n) := by
  by_cases hn : n = ""
  · subst hn
    have hl : (alterVersionSQL id "").toList =
        "ALTER EXTENSION ".toList ++ ((QuoteIdentifier id).toList ++ " UPDATE".toList) := by
      simp [alterVersionSQL]
    have hupd : dropLit " UPDATE".toList " UPDATE".toList = some [] := rfl
    have hq : (" UPDATE".toList : List Char).head? ≠ some '"' := by
      rw [show (" UPDATE".toList : List Char).head? = some ' ' from rfl]
      simp
    simp only [parseAlterVersionStmt, hl, dropLit_append,
      parseQuoted_round id _ hq, hupd]
    simp
  · have hl : (alterVersionSQL id n).toList =
        "ALTER EXTENSION ".toList ++ ((QuoteIdentifier id).toList ++
          (" UPDATE".toList ++ (" TO ".toList ++ (QuoteIdentifier n).toList))) := by
      simp [alterVersionSQL, hn]
    have hto : ¬ ((" TO ".toList ++ (QuoteIdentifier n).toList).isEmpty = true) := by
      rw [show (" TO ".toList ++ (QuoteIdentifier n).toList).isEmpty = false from rfl]
      simp
    simp only [parseAlterVersionStmt, hl, dropLit_append,
      parseQuoted_round id _ (head_ne_quote_updateKw _), if_neg hto,
      parseQuoted_round_nil, hn]
    simp [hn]

/-- Round trip for the built drop statement. -/
theorem parseDropStmt_round (id : String) :
    parseDropStmt (dropExtensionSQL id) = some id := by
  have hl : (dropExtensionSQL id).toList =
      "DROP EXTENSION ".toList ++ (QuoteIdentifier id).toList := by
    simp [dropExtensionSQL]
  simp only [parseDropStmt, hl, dropLit_append, parseQuoted_round_nil]
  simp

theorem wellQuoted_create (d : ResourceData) :
    wellQuotedStmt (createExtensionSQL d) = true := by
  simp [wellQuotedStmt, parseCreateStmt_round]

theorem wellQuoted_alterSchema (id n : String) :
    wellQuotedStmt (alterSchemaSQL id n) = true := by
  simp [wellQuotedStmt, parseAlterSchemaStmt_round]

theorem wellQuoted_alterVersion (id n : String) :
    wellQuotedStmt (alterVersionSQL id n) = true := by
  simp [wellQuotedStmt, parseAlterVersionStmt_round]

theorem wellQuoted_drop (id : String) :
    wellQuotedStmt (dropExtensionSQL id) = true := by
  simp [wellQuotedStmt, parseDropStmt_round]

/-! Shape lemmas for the operation traces. -/

theorem readImpl_trace (db : DB) (d : ResourceData) :
    (resourcePostgreSQLExtensionReadImpl db d).2 = [.query extensionFullQuery d.id] := by
  cases h : db.fullRead d.id <;> simp [resourcePostgreSQLExtensionReadImpl, h]

theorem create_pair_err (c : Client) (db : DB) (d : ResourceData) (e : String)
    (hc : c.featureSupported = true) (hdb : db.exec (createExtensionSQL d) = some e) :
    resourcePostgreSQLExtensionCreate c db d =
      (.error (.wrapped "Error creating extension" e),
       [.lock, .exec (createExtensionSQL d), .unlock]) := by
  simp [resourcePostgreSQLExtensionCreate, hc, hdb]

theorem create_pair_ok (c : Client) (db : DB) (d : ResourceData)
    (hc : c.featureSupported = true) (hdb : db.exec (createExtensionSQL d) = none) :
    resourcePostgreSQLExtensionCreate c db d =
      ((resourcePostgreSQLExtensionReadImpl db { d with id := d.newName }).1,
       [.lock, .exec (createExtensionSQL d),
        .query extensionFullQuery d.newName, .unlock]) := by
  rcases hri : resourcePostgreSQLExtensionReadImpl db { d with id := d.newName } with ⟨r, evs⟩
  have htr := readImpl_trace db { d with id := d.newName }
  rw [hri] at htr
  simp at htr
  simp [resourcePostgreSQLExtensionCreate, hc, hdb, hri, htr]

theorem read_pair (c : Client) (db : DB) (d : ResourceData)
    (hc : c.featureSupported = true) :
    resourcePostgreSQLExtensionRead c db d =
      ((resourcePostgreSQLExtensionReadImpl db d).1,
       [.rlock, .query extensionFullQuery d.id, .runlock]) := by
  rcases hri : resourcePostgreSQLExtensionReadImpl db d with ⟨r, evs⟩
  have htr := readImpl_trace db d
  rw [hri] at htr
  simp at htr
  simp [resourcePostgreSQLExtensionRead, hc, hri, htr]

theorem execStmts_nil : execStmts [] = [] := rfl

theorem execStmts_cons_exec (s : String) (es : List Event) :
    execStmts (.exec s :: es) = s :: execStmts es := rfl

theorem execStmts_cons_lock (es : List Event) :
    execStmts (.lock :: es) = execStmts es := rfl

theorem execStmts_cons_unlock (es : List Event) :
    execStmts (.unlock :: es) = execStmts es := rfl

theorem execStmts_cons_rlock (es : List Event) :
    execStmts (.rlock :: es) = execStmts es := rfl

theorem execStmts_cons_runlock (es : List Event) :
    execStmts (.runlock :: es) = execStmts es := rfl

theorem execStmts_cons_query (q p : String) (es : List Event) :
    execStmts (.query q p :: es) = execStmts es := rfl

theorem execStmts_append (a b : List Event) :
    execStmts (a ++ b) = execStmts a ++ execStmts b := by
  induction a with
  | nil => rfl
  | cons e es ih =>
    cases e <;> simp [execStmts_cons_exec, execStmts_cons_lock, execStmts_cons_unlock,
      execStmts_cons_rlock, execStmts_cons_runlock, execStmts_cons_query, ih]

theorem setExtSchema_stmts (db : DB) (d : ResourceData) :
    ∀ s ∈ execStmts (setExtSchema db d).2, s = alterSchemaSQL d.id d.newSchema := by
  intro s hs
  by_cases h1 : hasChange d.oldSchema d.newSchema = true
  · by_cases h2 : d.newSchema = ""
    · have h1x : hasChange d.oldSchema "" = true := by rw [← h2]; exact h1
      simp [setExtSchema, h1x, h2, execStmts_nil] at hs
    · cases hex : db.exec (alterSchemaSQL d.id d.newSchema) with
      | some e =>
        simp [setExtSchema, h1, h2, hex, execStmts_cons_exec, execStmts_nil] at hs
        exact hs
      | none =>
        simp [setExtSchema, h1, h2, hex, execStmts_cons_exec, execStmts_nil] at hs
        exact hs
  · simp at h1
    simp [setExtSchema, h1, execStmts_nil] at hs

theorem setExtVersion_stmts (db : DB) (d : ResourceData) :
    ∀ s ∈ execStmts (setExtVersion db d).2, s = alterVersionSQL d.id d.newVersion := by
  intro s hs
  by_cases h1 : hasChange d.oldVersion d.newVersion = true
  · cases hex : db.exec (alterVersionSQL d.id d.newVersion) with
    | some e =>
      simp [setExtVersion, h1, hex, execStmts_cons_exec, execStmts_nil] at hs
      exact hs
    | none =>
      simp [setExtVersion, h1, hex, execStmts_cons_exec, execStmts_nil] at hs
      exact hs
  · simp at h1
    simp [setExtVersion, h1, execStmts_nil] at hs

theorem readImpl_stmts (db : DB) (d : ResourceData) :
    execStmts (resourcePostgreSQLExtensionReadImpl db d).2 = [] := by
  rw [readImpl_trace]
  rfl

/-- C1: every identifier interpolated into an emitted SQL statement text (the
extension name in create/drop/alter, the new schema in relocation, the new
version in reversion) appears only in double-quote-escaped identifier form as
produced by the single quoting routine `pq.QuoteIdentifier`: every statement
any of the five lifecycle operations passes to `Exec`, for every caller input,
is recognized by the spec-side quoted-statement grammar `wellQuotedStmt`. -/
theorem extension_identifiers_well_quoted (c : Client) (db : DB) (d : ResourceData) :
    (∀ s ∈ execStmts (resourcePostgreSQLExtensionCreate c db d).2, wellQuotedStmt s = true) ∧
    (∀ s ∈ execStmts (resourcePostgreSQLExtensionRead c db d).2, wellQuotedStmt s = true) ∧
    (∀ s ∈ execStmts (resourcePostgreSQLExtensionUpdate c db d).2, wellQuotedStmt s = true) ∧
    (∀ s ∈ execStmts (resourcePostgreSQLExtensionDelete c db d).2, wellQuotedStmt s = true) ∧
    (∀ s ∈ execStmts (resourcePostgreSQLExtensionExists c db d).2, wellQuotedStmt s = true) := by
  by_cases hc : c.featureSupported = true
  · refine ⟨?_, ?_, ?_, ?_, ?_⟩
    · intro s hs
      cases hdb : db.exec (createExtensionSQL d) with
      | some e =>
        rw [create_pair_err c db d e hc hdb] at hs
        simp [execStmts_cons_lock, execStmts_cons_exec, execStmts_cons_unlock,
          execStmts_nil] at hs
        subst hs
        exact wellQuoted_create d
      | none =>
        rw [create_pair_ok c db d hc hdb] at hs
        simp [execStmts_cons_lock, execStmts_cons_exec, execStmts_cons_query,
          execStmts_cons_unlock, execStmts_nil] at hs
        subst hs
        exact wellQuoted_create d
    · intro s hs
      rw [read_pair c db d hc] at hs
      simp [execStmts_cons_rlock, execStmts_cons_query, execStmts_cons_runlock,
        execStmts_nil] at hs
    · intro s hs
      rcases hss : setExtSchema db d with ⟨r1, evs1⟩
      have hsub1 := setExtSchema_stmts db d
      rw [hss] at hsub1
      cases r1 with
      | error e =>
        simp [resourcePostgreSQLExtensionUpdate, hc, hss, execStmts_cons_lock,
          execStmts_append, execStmts_cons_unlock, execStmts_nil] at hs
        rw [hsub1 s hs]
        exact wellQuoted_alterSchema _ _
      | ok d1 =>
        rcases hsv : setExtVersion db d1 with ⟨r2, evs2⟩
        have hsub2 := setExtVersion_stmts db d1
        rw [hsv] at hsub2
        cases r2 with
        | error e =>
          simp [resourcePostgreSQLExtensionUpdate, hc, hss, hsv, execStmts_cons_lock,
            execStmts_append, execStmts_cons_unlock, execStmts_nil] at hs
          rcases hs with hs | hs
          · rw [hsub1 s hs]
            exact wellQuoted_alterSchema _ _
          · rw [hsub2 s hs]
            exact wellQuoted_alterVersion _ _
        | ok d2 =>
          rcases hri : resourcePostgreSQLExtensionReadImpl db d2 with ⟨r3, evs3⟩
          have hsub3 := readImpl_stmts db d2
          rw [hri] at hsub3
          simp [resourcePostgreSQLExtensionUpdate, hc, hss, hsv, hri,
            execStmts_cons_lock, execStmts_append, execStmts_cons_unlock,
            execStmts_nil, hsub3] at hs
          rcases hs with hs | hs
          · rw [hsub1 s hs]
            exact wellQuoted_alterSchema _ _
          · rw [hsub2 s hs]
            exact wellQuoted_alterVersion _ _
    · intro s hs
      cases hdb : db.exec (dropExtensionSQL d.id) with
      | some e =>
        simp [resourcePostgreSQLExtensionDelete, hc, hdb, execStmts_cons_lock,
          execStmts_cons_exec, execStmts_cons_unlock, execStmts_nil] at hs
        subst hs
        exact wellQuoted_drop _
      | none =>
        simp [resourcePostgreSQLExtensionDelete, hc, hdb, execStmts_cons_lock,
          execStmts_cons_exec, execStmts_cons_unlock, execStmts_nil] at hs
        subst hs
        exact wellQuoted_drop _
    · intro s hs
      cases hdb : db.extProbe d.id with
      | noRows =>
        simp [resourcePostgreSQLExtensionExists, hc, hdb, execStmts_cons_lock,
          execStmts_cons_query, execStmts_cons_unlock, execStmts_nil] at hs
      | err e =>
        simp [resourcePostgreSQLExtensionExists, hc, hdb, execStmts_cons_lock,
          execStmts_cons_query, execStmts_cons_unlock, execStmts_nil] at hs
      | row x =>
        simp [resourcePostgreSQLExtensionExists, hc, hdb, execStmts_cons_lock,
          execStmts_cons_query, execStmts_cons_unlock, execStmts_nil] at hs
  · simp at hc
    refine ⟨?_, ?_, ?_, ?_, ?_⟩ <;> intro s hs
    · simp [resourcePostgreSQLExtensionCreate, hc, execStmts_nil] at hs
    · simp [resourcePostgreSQLExtensionRead, hc, execStmts_nil] at hs
    · simp [resourcePostgreSQLExtensionUpdate, hc, execStmts_nil] at hs
    · simp [resourcePostgreSQLExtensionDelete, hc, execStmts_nil] at hs
    · simp [resourcePostgreSQLExtensionExists, hc, execStmts_nil] at hs

/-- Witness for C1: the creation statement emitted for the sample descriptor,
whose name holds an embedded double quote, is recognized by the grammar. -/
theorem extension_identifiers_well_quoted_witness :
    wellQuotedStmt (createExtensionSQL sampleData) = true :=
  (extension_identifiers_well_quoted sampleClient sampleDB sampleData).1
    (createExtensionSQL sampleData)
    (by rw [show execStmts (resourcePostgreSQLExtensionCreate sampleClient sampleDB
        sampleData).2 = [createExtensionSQL sampleData] from rfl]
        exact List.mem_singleton.mpr rfl)

/-- C2: with extension support absent from the capability set, each of the
five lifecycle operations returns the unsupported-feature error with an empty
event trace: no lock is acquired and zero SQL is issued. -/
theorem capability_gate_blocks_all_ops (c : Client) (db : DB) (d : ResourceData)
    (h : c.featureSupported = false) :
    resourcePostgreSQLExtensionCreate c db d = (.error (.unsupportedFeature c.version), []) ∧
    resourcePostgreSQLExtensionRead c db d = (.error (.unsupportedFeature c.version), []) ∧
    resourcePostgreSQLExtensionUpdate c db d = (.error (.unsupportedFeature c.version), []) ∧
    resourcePostgreSQLExtensionDelete c db d = (.error (.unsupportedFeature c.version), []) ∧
    resourcePostgreSQLExtensionExists c db d = (.error (.unsupportedFeature c.version), []) := by
  refine ⟨?_, ?_, ?_, ?_, ?_⟩ <;>
    simp [resourcePostgreSQLExtensionCreate, resourcePostgreSQLExtensionRead,
      resourcePostgreSQLExtensionUpdate, resourcePostgreSQLExtensionDelete,
      resourcePostgreSQLExtensionExists, h]

/-- Witness for C2 at the gated sample client. -/
theorem capability_gate_blocks_all_ops_witness :
    resourcePostgreSQLExtensionCreate gatedClient sampleDB sampleData
        = (.error (.unsupportedFeature gatedClient.version), []) ∧
    resourcePostgreSQLExtensionRead gatedClient sampleDB sampleData
        = (.error (.unsupportedFeature gatedClient.version), []) ∧
    resourcePostgreSQLExtensionUpdate gatedClient sampleDB sampleData
        = (.error (.unsupportedFeature gatedClient.version), []) ∧
    resourcePostgreSQLExtensionDelete gatedClient sampleDB sampleData
        = (.error (.unsupportedFeature gatedClient.version), []) ∧
    resourcePostgreSQLExtensionExists gatedClient sampleDB sampleData
        = (.error (.unsupportedFeature gatedClient.version), []) :=
  capability_gate_blocks_all_ops gatedClient sampleDB sampleData rfl

/-- C3: a supported Create passes exactly one statement to `Exec`, the built
creation statement, and parsing that statement back yields the name, a schema
clause exactly when a schema value is present, then a version clause exactly
when a version value is present, and nothing else. -/
theorem create_statement_exact_shape (c : Client) (db : DB) (d : ResourceData)
    (hc : c.featureSupported = true) :
    execStmts (resourcePostgreSQLExtensionCreate c db d).2 = [createExtensionSQL d] ∧
    parseCreateStmt (createExtensionSQL d) =
      some (d.newName,
        (if d.newSchema = "" then (none : Option String) else some d.newSchema),
        (if d.newVersion = "" then (none : Option String) else some d.newVersion)) := by
  constructor
  · cases hdb : db.exec (createExtensionSQL d) with
    | some e =>
      rw [create_pair_err c db d e hc hdb]
      rfl
    | none =>
      rw [create_pair_ok c db d hc hdb]
      rfl
  · exact parseCreateStmt_round d

/-- Witness for C3 at the sample inputs. -/
theorem create_statement_exact_shape_witness :
    execStmts (resourcePostgreSQLExtensionCreate sampleClient sampleDB sampleData).2
        = [createExtensionSQL sampleData] ∧
    parseCreateStmt (createExtensionSQL sampleData) =
      some (sampleData.newName,
        (if sampleData.newSchema = "" then (none : Option String)
          else some sampleData.newSchema),
        (if sampleData.newVersion = "" then (none : Option String)
          else some sampleData.newVersion)) :=
  create_statement_exact_shape sampleClient sampleDB sampleData rfl

/-- C4: a zero-row catalog result is never surfaced as an error: Read on zero
rows clears the descriptor's identity and returns success; Exists on zero
rows returns false with no error; any other query error is propagated
(wrapped by Read, raw by Exists). -/
theorem not_found_is_not_an_error (c : Client) (db : DB) (d : ResourceData)
    (hc : c.featureSupported = true) :
    (db.fullRead d.id = .noRows →
      resourcePostgreSQLExtensionRead c db d =
        (.ok { d with id := "" },
         [.rlock, .query extensionFullQuery d.id, .runlock])) ∧
    (db.extProbe d.id = .noRows →
      resourcePostgreSQLExtensionExists c db d =
        (.ok false, [.lock, .query extensionExistsQuery d.id, .unlock])) ∧
    (∀ e, db.fullRead d.id = .err e →
      (resourcePostgreSQLExtensionRead c db d).1
        = .error (.wrapped "Error reading extension" e)) ∧
    (∀ e, db.extProbe d.id = .err e →
      (resourcePostgreSQLExtensionExists c db d).1 = .error (.driver e)) := by
  refine ⟨?_, ?_, ?_, ?_⟩
  · intro h
    rw [read_pair c db d hc]
    simp [resourcePostgreSQLExtensionReadImpl, h]
  · intro h
    simp [resourcePostgreSQLExtensionExists, hc, h]
  · intro e h
    rw [read_pair c db d hc]
    simp [resourcePostgreSQLExtensionReadImpl, h]
  · intro e h
    simp [resourcePostgreSQLExtensionExists, hc, h]

/-- Witness for C4: on the sample oracle reporting zero rows, Read clears the
identity and succeeds and Exists returns false with no error. -/
theorem not_found_is_not_an_error_witness :
    resourcePostgreSQLExtensionRead sampleClient sampleDB sampleData =
      (.ok { sampleData with id := "" },
       [.rlock, .query extensionFullQuery sampleData.id, .runlock]) ∧
    resourcePostgreSQLExtensionExists sampleClient sampleDB sampleData =
      (.ok false, [.lock, .query extensionExistsQuery sampleData.id, .unlock]) :=
  ⟨(not_found_is_not_an_error sampleClient sampleDB sampleData rfl).1 rfl,
   (not_found_is_not_an_error sampleClient sampleDB sampleData rfl).2.1 rfl⟩

/-- C5: with a schema change and a version change both pending, the
relocation statement is executed before the reversion statement; when the
relocation succeeds and the reversion fails, Update returns the reversion
error and its full trace holds exactly the two statements — no compensating
SQL undoing the relocation and no finishing read; when both succeed, Update
finishes with the catalog read. -/
theorem update_order_and_no_rollback (c : Client) (db : DB) (d : ResourceData)
    (hc : c.featureSupported = true)
    (hsch : hasChange d.oldSchema d.newSchema = true)
    (hne : d.newSchema ≠ "")
    (hver : hasChange d.oldVersion d.newVersion = true)
    (hok : db.exec (alterSchemaSQL d.id d.newSchema) = none) :
    (∀ e, db.exec (alterVersionSQL d.id d.newVersion) = some e →
      resourcePostgreSQLExtensionUpdate c db d =
        (.error (.wrapped "Error updating extension version" e),
         [.lock, .exec (alterSchemaSQL d.id d.newSchema),
          .exec (alterVersionSQL d.id d.newVersion), .unlock])) ∧
    (db.exec (alterVersionSQL d.id d.newVersion) = none →
      resourcePostgreSQLExtensionUpdate c db d =
        ((resourcePostgreSQLExtensionReadImpl db d).1,
         [.lock, .exec (alterSchemaSQL d.id d.newSchema),
          .exec (alterVersionSQL d.id d.newVersion),
          .query extensionFullQuery d.id, .unlock])) := by
  constructor
  · intro e he
    simp [resourcePostgreSQLExtensionUpdate, setExtSchema, setExtVersion,
      hc, hsch, hne, hver, hok, he]
  · intro he
    rcases hri : resourcePostgreSQLExtensionReadImpl db d with ⟨r, evs⟩
    have htr := readImpl_trace db d
    rw [hri] at htr
    simp at htr
    simp [resourcePostgreSQLExtensionUpdate, setExtSchema, setExtVersion,
      hc, hsch, hne, hver, hok, he, hri, htr]

/-- Witness for C5 at the split oracle: relocation succeeds, reversion fails,
and the trace holds the two statements in order with no rollback or read. -/
theorem update_order_and_no_rollback_witness :
    resourcePostgreSQLExtensionUpdate sampleClient splitDB updData =
      (.error (.wrapped "Error updating extension version" "boom"),
       [.lock, .exec (alterSchemaSQL updData.id updData.newSchema),
        .exec (alterVersionSQL updData.id updData.newVersion), .unlock]) :=
  (update_order_and_no_rollback sampleClient splitDB updData rfl rfl
    (by decide) rfl (by rfl)).1 "boom" (by rfl)

/-- Counterexample for C6 as stated: with previous equal to desired on every
field, Update still performs the finishing catalog read, so it is not
SQL-free and not unconditionally successful — on an oracle whose read fails,
the no-op Update returns an error, and its trace holds a catalog query. -/
theorem noop_update_counterexample :
    (resourcePostgreSQLExtensionUpdate sampleClient failDB noopData).1
        = .error (.wrapped "Error reading extension" "connection reset") ∧
    (resourcePostgreSQLExtensionUpdate sampleClient failDB noopData).2
        = [.lock, .query extensionFullQuery "pgcrypto", .unlock] := by
  constructor <;> rfl

/-- C6 amended: when the previous and desired descriptors agree on every
field, Update passes zero statements to `Exec`; the only SQL it issues is the
finishing catalog read, and it returns success whenever that read does not
fail (a found row and zero rows both succeed). -/
theorem noop_update_zero_exec (c : Client) (db : DB) (d : ResourceData)
    (hc : c.featureSupported = true)
    (hs : d.oldSchema = d.newSchema) (hv : d.oldVersion = d.newVersion)
    (hnf : ∀ e, db.fullRead d.id ≠ ReadResult.err e) :
    resourcePostgreSQLExtensionUpdate c db d =
      ((resourcePostgreSQLExtensionReadImpl db d).1,
       [.lock, .query extensionFullQuery d.id, .unlock]) ∧
    execStmts (resourcePostgreSQLExtensionUpdate c db d).2 = [] ∧
    isOk (resourcePostgreSQLExtensionUpdate c db d).1 = true := by
  have hcs : hasChange d.oldSchema d.newSchema = false := by
    simp [hasChange, hs]
  have hcv : hasChange d.oldVersion d.newVersion = false := by
    simp [hasChange, hv]
  rcases hri : resourcePostgreSQLExtensionReadImpl db d with ⟨r, evs⟩
  have htr := readImpl_trace db d
  rw [hri] at htr
  simp at htr
  have hpair : resourcePostgreSQLExtensionUpdate c db d =
      (r, [.lock, .query extensionFullQuery d.id, .unlock]) := by
    simp [resourcePostgreSQLExtensionUpdate, setExtSchema, setExtVersion,
      hc, hcs, hcv, hri, htr]
  refine ⟨by rw [hpair], by rw [hpair]; rfl, ?_⟩
  rw [hpair]
  cases hfr : db.fullRead d.id with
  | noRows =>
    simp [resourcePostgreSQLExtensionReadImpl, hfr] at hri
    simp [← hri.1, isOk]
  | err e => exact absurd hfr (hnf e)
  | row nm sc ve =>
    simp [resourcePostgreSQLExtensionReadImpl, hfr] at hri
    simp [← hri.1, isOk]

/-- Witness for C6 amended: a no-op Update on the row-returning oracle issues
only the finishing read and succeeds. -/
theorem noop_update_zero_exec_witness :
    resourcePostgreSQLExtensionUpdate sampleClient rowDB noopData =
      ((resourcePostgreSQLExtensionReadImpl rowDB noopData).1,
       [.lock, .query extensionFullQuery noopData.id, .unlock]) ∧
    execStmts (resourcePostgreSQLExtensionUpdate sampleClient rowDB noopData).2 = [] ∧
    isOk (resourcePostgreSQLExtensionUpdate sampleClient rowDB noopData).1 = true :=
  noop_update_zero_exec sampleClient rowDB noopData rfl rfl rfl
    (fun e h => by simp [rowDB] at h)

/-- C7: an Update whose desired schema is the empty string while the schema
field reports a change fails with the validation error; its trace holds no
SQL at all, so the schema sub-step issues nothing and neither the version
sub-step nor the finishing read is reached. -/
theorem update_empty_schema_validation (c : Client) (db : DB) (d : ResourceData)
    (hc : c.featureSupported = true)
    (hchg : hasChange d.oldSchema d.newSchema = true)
    (hempty : d.newSchema = "") :
    resourcePostgreSQLExtensionUpdate c db d =
      (.error (.validation "Error setting extension name to an empty string"),
       [.lock, .unlock]) := by
  have h1x : hasChange d.oldSchema "" = true := by rw [← hempty]; exact hchg
  simp [resourcePostgreSQLExtensionUpdate, setExtSchema, hc, hempty, h1x]

/-- Witness for C7 at the sample data relocating to the empty string. -/
theorem update_empty_schema_validation_witness :
    resourcePostgreSQLExtensionUpdate sampleClient sampleDB emptySchemaData =
      (.error (.validation "Error setting extension name to an empty string"),
       [.lock, .unlock]) :=
  update_empty_schema_validation sampleClient sampleDB emptySchemaData rfl rfl rfl

theorem midThenClose_append (ulk : Event) (mid : List Event)
    (h : mid.all isSqlEvent = true) : midThenClose ulk (mid ++ [ulk]) = true := by
  induction mid with
  | nil => simp [midThenClose]
  | cons e es ih =>
    rw [List.all_cons, Bool.and_eq_true] at h
    have hne : ((es ++ [ulk]).isEmpty) = false := by
      cases es <;> rfl
    simp [midThenClose, hne, h.1, ih h.2]

theorem wellScoped_shape (lk ulk : Event) (mid : List Event)
    (h : mid.all isSqlEvent = true) :
    wellScoped lk ulk (lk :: (mid ++ [ulk])) = true := by
  simp [wellScoped, midThenClose_append ulk mid h]

theorem setExtSchema_sql (db : DB) (d : ResourceData) :
    (setExtSchema db d).2.all isSqlEvent = true := by
  by_cases h1 : hasChange d.oldSchema d.newSchema = true
  · by_cases h2 : d.newSchema = ""
    · have h1x : hasChange d.oldSchema "" = true := by rw [← h2]; exact h1
      simp [setExtSchema, h1x, h2]
    · cases hex : db.exec (alterSchemaSQL d.id d.newSchema) with
      | some e => simp [setExtSchema, h1, h2, hex, isSqlEvent]
      | none => simp [setExtSchema, h1, h2, hex, isSqlEvent]
  · simp at h1
    simp [setExtSchema, h1]

theorem setExtVersion_sql (db : DB) (d : ResourceData) :
    (setExtVersion db d).2.all isSqlEvent = true := by
  by_cases h1 : hasChange d.oldVersion d.newVersion = true
  · cases hex : db.exec (alterVersionSQL d.id d.newVersion) with
    | some e => simp [setExtVersion, h1, hex, isSqlEvent]
    | none => simp [setExtVersion, h1, hex, isSqlEvent]
  · simp at h1
    simp [setExtVersion, h1]

theorem readImpl_sql (db : DB) (d : ResourceData) :
    (resourcePostgreSQLExtensionReadImpl db d).2.all isSqlEvent = true := by
  rw [readImpl_trace]
  rfl

/-- C8: on a capability-supporting client, Create, Update, Delete and Exists
each produce a trace opening with the exclusive lock acquisition and Read a
trace opening with the shared acquisition — so the lock is taken immediately
after the capability check and before any SQL — every event in between is a
SQL event, and the matching release closes the trace on every exit path
(success, validation failure, driver error). -/
theorem lock_scoping_all_ops (c : Client) (db : DB) (d : ResourceData)
    (hc : c.featureSupported = true) :
    wellScoped .lock .unlock (resourcePostgreSQLExtensionCreate c db d).2 = true ∧
    wellScoped .rlock .runlock (resourcePostgreSQLExtensionRead c db d).2 = true ∧
    wellScoped .lock .unlock (resourcePostgreSQLExtensionUpdate c db d).2 = true ∧
    wellScoped .lock .unlock (resourcePostgreSQLExtensionDelete c db d).2 = true ∧
    wellScoped .lock .unlock (resourcePostgreSQLExtensionExists c db d).2 = true := by
  refine ⟨?_, ?_, ?_, ?_, ?_⟩
  · cases hdb : db.exec (createExtensionSQL d) with
    | some e => rw [create_pair_err c db d e hc hdb]; rfl
    | none => rw [create_pair_ok c db d hc hdb]; rfl
  · rw [read_pair c db d hc]
    rfl
  · rcases hss : setExtSchema db d with ⟨r1, evs1⟩
    have ha1 : evs1.all isSqlEvent = true := by
      have h := setExtSchema_sql db d
      rw [hss] at h
      exact h
    cases r1 with
    | error e =>
      simp only [resourcePostgreSQLExtensionUpdate, hc, Bool.not_true, hss,
        Bool.false_eq_true, if_false]
      exact wellScoped_shape _ _ _ ha1
    | ok d1 =>
      rcases hsv : setExtVersion db d1 with ⟨r2, evs2⟩
      have ha2 : evs2.all isSqlEvent = true := by
        have h := setExtVersion_sql db d1
        rw [hsv] at h
        exact h
      cases r2 with
      | error e =>
        simp only [resourcePostgreSQLExtensionUpdate, hc, Bool.not_true, hss, hsv,
          Bool.false_eq_true, if_false]
        exact wellScoped_shape _ _ _ (by simp [ha1, ha2])
      | ok d2 =>
        rcases hri : resourcePostgreSQLExtensionReadImpl db d2 with ⟨r3, evs3⟩
        have ha3 : evs3.all isSqlEvent = true := by
          have h := readImpl_sql db d2
          rw [hri] at h
          exact h
        simp only [resourcePostgreSQLExtensionUpdate, hc, Bool.not_true, hss, hsv, hri,
          Bool.false_eq_true, if_false]
        exact wellScoped_shape _ _ _ (by simp [ha1, ha2, ha3])
  · cases hdb : db.exec (dropExtensionSQL d.id) with
    | some e => simp [resourcePostgreSQLExtensionDelete, hc, hdb, wellScoped, midThenClose, isSqlEvent]
    | none => simp [resourcePostgreSQLExtensionDelete, hc, hdb, wellScoped, midThenClose, isSqlEvent]
  · cases hdb : db.extProbe d.id with
    | noRows => simp [resourcePostgreSQLExtensionExists, hc, hdb, wellScoped, midThenClose, isSqlEvent]
    | err e => simp [resourcePostgreSQLExtensionExists, hc, hdb, wellScoped, midThenClose, isSqlEvent]
    | row x => simp [resourcePostgreSQLExtensionExists, hc, hdb, wellScoped, midThenClose, isSqlEvent]

/-- Witness for C8 at the sample inputs. -/
theorem lock_scoping_all_ops_witness :
    wellScoped .lock .unlock
      (resourcePostgreSQLExtensionCreate sampleClient sampleDB sampleData).2 = true ∧
    wellScoped .rlock .runlock
      (resourcePostgreSQLExtensionRead sampleClient sampleDB sampleData).2 = true ∧
    wellScoped .lock .unlock
      (resourcePostgreSQLExtensionUpdate sampleClient sampleDB sampleData).2 = true ∧
    wellScoped .lock .unlock
      (resourcePostgreSQLExtensionDelete sampleClient sampleDB sampleData).2 = true ∧
    wellScoped .lock .unlock
      (resourcePostgreSQLExtensionExists sampleClient sampleDB sampleData).2 = true :=
  lock_scoping_all_ops sampleClient sampleDB sampleData rfl

/-- C9: on Create, a desired schema or version equal to the empty string is
treated as an absent value: the built statement omits the SCHEMA
(respectively VERSION) clause entirely — the statement equals the clause-free
form and its parse holds no schema (respectively version) component, so it
never carries an empty-identifier clause. -/
theorem create_empty_optionals_omitted (d : ResourceData) :
    (d.newSchema = "" →
      createExtensionSQL d =
        "CREATE EXTENSION IF NOT EXISTS " ++ QuoteIdentifier d.newName ++
          (if getOk d.newVersion then " VERSION " ++ QuoteIdentifier d.newVersion else "") ∧
      parseCreateStmt (createExtensionSQL d) =
        some (d.newName, (none : Option String),
          (if d.newVersion = "" then (none : Option String) else some d.newVersion))) ∧
    (d.newVersion = "" →
      createExtensionSQL d =
        "CREATE EXTENSION IF NOT EXISTS " ++ QuoteIdentifier d.newName ++
          (if getOk d.newSchema then " SCHEMA " ++ QuoteIdentifier d.newSchema else "") ∧
      parseCreateStmt (createExtensionSQL d) =
        some (d.newName,
          (if d.newSchema = "" then (none : Option String) else some d.newSchema),
          (none : Option String))) := by
  constructor
  · intro hs
    constructor
    · simp [createExtensionSQL, getOk, hs]
    · rw [parseCreateStmt_round d]
      simp [hs]
  · intro hv
    constructor
    · simp [createExtensionSQL, getOk, hv]
    · rw [parseCreateStmt_round d]
      simp [hv]

/-- Witness for C9 at the sample descriptor with both optional values
empty. -/
theorem create_empty_optionals_omitted_witness :
    (createExtensionSQL bareData =
      "CREATE EXTENSION IF NOT EXISTS " ++ QuoteIdentifier bareData.newName ++
        (if getOk bareData.newVersion then " VERSION " ++ QuoteIdentifier bareData.newVersion
          else "") ∧
    parseCreateStmt (createExtensionSQL bareData) =
      some (bareData.newName, (none : Option String),
        (if bareData.newVersion = "" then (none : Option String)
          else some bareData.newVersion))) ∧
    (createExtensionSQL bareData =
      "CREATE EXTENSION IF NOT EXISTS " ++ QuoteIdentifier bareData.newName ++
        (if getOk bareData.newSchema then " SCHEMA " ++ QuoteIdentifier bareData.newSchema
          else "") ∧
    parseCreateStmt (createExtensionSQL bareData) =
      some (bareData.newName,
        (if bareData.newSchema = "" then (none : Option String) else some bareData.newSchema),
        (none : Option String))) :=
  ⟨(create_empty_optionals_omitted bareData).1 rfl,
   (create_empty_optionals_omitted bareData).2 rfl⟩

/-- C10: an Update changing the version to the empty string is not rejected:
the version sub-step executes the bare statement
`ALTER EXTENSION "<name>" UPDATE`, whose parse carries no target-version
clause — in contrast with the schema field, where a change to the empty
string is a validation error. -/
theorem version_empty_bare_update (c : Client) (db : DB) (d d2 : ResourceData)
    (hc : c.featureSupported = true)
    (hsame : hasChange d.oldSchema d.newSchema = false)
    (hchg : hasChange d.oldVersion d.newVersion = true)
    (hempty : d.newVersion = "")
    (h1 : hasChange d2.oldSchema d2.newSchema = true)
    (h2 : d2.newSchema = "") :
    (resourcePostgreSQLExtensionUpdate c db d).2.take 2 =
      [.lock, .exec (alterVersionSQL d.id d.newVersion)] ∧
    alterVersionSQL d.id d.newVersion
      = "ALTER EXTENSION " ++ QuoteIdentifier d.id ++ " UPDATE" ∧
    parseAlterVersionStmt (alterVersionSQL d.id d.newVersion) = some (d.id, none) ∧
    (setExtSchema db d2).1
      = .error (.validation "Error setting extension name to an empty string") := by
  refine ⟨?_, ?_, ?_, ?_⟩
  · cases hex : db.exec (alterVersionSQL d.id d.newVersion) with
    | some e =>
      simp [resourcePostgreSQLExtensionUpdate, setExtSchema, setExtVersion,
        hc, hsame, hchg, hex]
    | none =>
      rcases hri : resourcePostgreSQLExtensionReadImpl db d with ⟨r, evs⟩
      simp [resourcePostgreSQLExtensionUpdate, setExtSchema, setExtVersion,
        hc, hsame, hchg, hex, hri]
  · simp [alterVersionSQL, hempty]
  · rw [parseAlterVersionStmt_round]
    simp [hempty]
  · have h1x : hasChange d2.oldSchema "" = true := by rw [← h2]; exact h1
    simp [setExtSchema, h1x, h2]

/-- Witness for C10: the sample version-clearing data and the sample
empty-schema data. -/
theorem version_empty_bare_update_witness :
    (resourcePostgreSQLExtensionUpdate sampleClient sampleDB bareVerData).2.take 2 =
      [.lock, .exec (alterVersionSQL bareVerData.id bareVerData.newVersion)] ∧
    alterVersionSQL bareVerData.id bareVerData.newVersion
      = "ALTER EXTENSION " ++ QuoteIdentifier bareVerData.id ++ " UPDATE" ∧
    parseAlterVersionStmt (alterVersionSQL bareVerData.id bareVerData.newVersion)
      = some (bareVerData.id, none) ∧
    (setExtSchema sampleDB emptySchemaData).1
      = .error (.validation "Error setting extension name to an empty string") :=
  version_empty_bare_update sampleClient sampleDB bareVerData emptySchemaData
    rfl rfl rfl rfl rfl rfl

end PgExt
